import Mathlib

/-!
Verification of the generic actor-per-resource framework from
`src/actor_framework.rs` (`Entity` trait, `ResourceActor::run`, and
`ResourceClient`).

Modelling choices, all taken directly from the Rust source:

* The `Entity` trait becomes a structure of hook functions.  A Rust method
  taking `&mut self` and returning `Result<(), String>` becomes a Lean
  function `T → Except String Unit × T`, whose second component is the state
  the instance is left in (the in-place mutation), including on failure.
* The actor's `HashMap<T::Id, T>` store becomes a function `Id → Option T`
  with pointwise insert/remove, matching `HashMap` key-replacement semantics.
* The injected id generator closure (`next_id_fn`) is modelled as a pure
  stream `gen : Nat → Id` together with an invocation counter kept in the
  actor state: each Create reads `gen counter` and bumps the counter,
  so "the generator was invoked exactly once" is the counter advancing by one.
* Every `respond_to.send(...)` in the loop body becomes an element of the
  list of reply events returned by `step`, so counting send attempts is
  meaningful.
* The client methods' channel interactions (`mpsc::Sender::send` failing when
  the receiver is dropped; the `oneshot` reply being dropped or carrying a
  value) are modelled by explicit outcome arguments.
-/

namespace ActorRecipe

/-- Errors of the framework itself, mirroring the Rust `FrameworkError` enum. -/
inductive FrameworkError where
  | ActorClosed : FrameworkError
  | ActorDropped : FrameworkError
  | NotFound (msg : String) : FrameworkError
  | Custom (msg : String) : FrameworkError
deriving DecidableEq, Repr

/-- The `Entity` trait: lifecycle hooks and the custom-action handler.
Methods on `&mut self` return the mutated instance alongside their result;
`on_delete` takes `&self` and cannot mutate.  `on_create` and `on_delete`
carry the trait's default no-op bodies. -/
structure Entity (Id P Patch A R T : Type) where
  from_create : Id → P → Except String T
  on_create : T → Except String Unit × T := fun t => (Except.ok (), t)
  on_update : T → Patch → Except String Unit × T
  on_delete : T → Except String Unit := fun _ => Except.ok ()
  handle_action : T → A → Except String R × T

/-- The request variants of `ResourceRequest<T>`, minus the reply channels
(replies are tracked as emitted events of `step` instead). -/
inductive ResourceRequest (Id P Patch A : Type) where
  | Create (payload : P) : ResourceRequest Id P Patch A
  | Get (id : Id) : ResourceRequest Id P Patch A
  | Update (id : Id) (patch : Patch) : ResourceRequest Id P Patch A
  | Delete (id : Id) : ResourceRequest Id P Patch A
  | Action (id : Id) (act : A) : ResourceRequest Id P Patch A

/-- One value sent on a reply channel: each constructor corresponds to the
`respond_to` channel type of one request variant. -/
inductive Reply (Id T R : Type) where
  | createR (r : Except FrameworkError Id) : Reply Id T R
  | getR (r : Except FrameworkError (Option T)) : Reply Id T R
  | updateR (r : Except FrameworkError T) : Reply Id T R
  | deleteR (r : Except FrameworkError Unit) : Reply Id T R
  | actionR (r : Except FrameworkError R) : Reply Id T R

/-- The actor's in-memory store, `HashMap<T::Id, T>` as a total lookup map. -/
def Store (Id T : Type) : Type := Id → Option T

/-- `HashMap::new()`. -/
def Store.empty {Id T : Type} : Store Id T := fun _ => none

/-- `HashMap::insert` (replaces any existing value under the key). -/
def Store.insert {Id T : Type} [DecidableEq Id] (s : Store Id T) (k : Id) (v : T) :
    Store Id T := fun k' => if k' = k then some v else s k'

/-- `HashMap::remove`. -/
def Store.remove {Id T : Type} [DecidableEq Id] (s : Store Id T) (k : Id) :
    Store Id T := fun k' => if k' = k then none else s k'

/-- The mutable state of `ResourceActor<T>`: the store plus how many times
`next_id_fn` has been invoked (the generator stream index). -/
structure ActorState (Id T : Type) where
  store : Store Id T
  counter : Nat

section Actor

variable {Id P Patch A R T : Type} [DecidableEq Id]

/-- One iteration of the `ResourceActor::run` loop body: process a single
dequeued request against the state, returning the new state and the list of
send attempts made on the request's reply channel (in order).
`gen` is the injected `next_id_fn` as a stream; `disp` is `Display` for ids,
used by `FrameworkError::NotFound(id.to_string())`. -/
def step (E : Entity Id P Patch A R T) (gen : Nat → Id) (disp : Id → String)
    (s : ActorState Id T) :
    ResourceRequest Id P Patch A → ActorState Id T × List (Reply Id T R)
  | .Create payload =>
    let id := gen s.counter
    let s₁ : ActorState Id T := { s with counter := s.counter + 1 }
    match E.from_create id payload with
    | .ok item =>
      match E.on_create item with
      | (.error e, _) => (s₁, [.createR (.error (.Custom e))])
      | (.ok _, item') =>
        ({ s₁ with store := s₁.store.insert id item' }, [.createR (.ok id)])
    | .error e => (s₁, [.createR (.error (.Custom e))])
  | .Get id =>
    (s, [.getR (.ok (s.store id))])
  | .Update id patch =>
    match s.store id with
    | some item =>
      match E.on_update item patch with
      | (.error e, item') =>
        ({ s with store := s.store.insert id item' }, [.updateR (.error (.Custom e))])
      | (.ok _, item') =>
        ({ s with store := s.store.insert id item' }, [.updateR (.ok item')])
    | none => (s, [.updateR (.error (.NotFound (disp id)))])
  | .Delete id =>
    match s.store id with
    | some item =>
      match E.on_delete item with
      | .error e => (s, [.deleteR (.error (.Custom e))])
      | .ok _ => ({ s with store := s.store.remove id }, [.deleteR (.ok ())])
    | none => (s, [.deleteR (.error (.NotFound (disp id)))])
  | .Action id act =>
    match s.store id with
    | some item =>
      match E.handle_action item act with
      | (.error e, item') =>
        ({ s with store := s.store.insert id item' }, [.actionR (.error (.Custom e))])
      | (.ok r, item') =>
        ({ s with store := s.store.insert id item' }, [.actionR (.ok r)])
    | none => (s, [.actionR (.error (.NotFound (disp id)))])

/-- The `run` loop over a finite request sequence: fold `step`, concatenating
the reply events in processing order. -/
def run (E : Entity Id P Patch A R T) (gen : Nat → Id) (disp : Id → String)
    (s : ActorState Id T) :
    List (ResourceRequest Id P Patch A) → ActorState Id T × List (Reply Id T R)
  | [] => (s, [])
  | req :: reqs =>
    let out := step E gen disp s req
    let rest := run E gen disp out.1 reqs
    (rest.1, out.2 ++ rest.2)

/-- The key whose store entry a request may touch: the freshly minted id for
Create, the request's id for Update/Delete/Action, nothing for Get. -/
def targetId (gen : Nat → Id) (s : ActorState Id T) :
    ResourceRequest Id P Patch A → Option Id
  | .Create _ => some (gen s.counter)
  | .Get _ => none
  | .Update id _ => some id
  | .Delete id => some id
  | .Action id _ => some id

/-- Whether a request is an Update, Delete, or Action on the given id
(the "intervening operations on i" the create-then-get property excludes). -/
def touchesId (i : Id) : ResourceRequest Id P Patch A → Prop
  | .Update j _ => j = i
  | .Delete j => j = i
  | .Action j _ => j = i
  | .Create _ => False
  | .Get _ => False

/-- Ids carried by successful Create replies, in order. -/
def successfulCreateIds : List (Reply Id T R) → List Id :=
  List.filterMap fun r =>
    match r with
    | .createR (.ok i) => some i
    | _ => none

end Actor

section Client

variable {Id P Patch A R T α : Type}

/-- Outcome of `self.sender.send(request).await`: `none` models
`Err(SendError)` (the actor dropped the receiving end), `some ()` a
successful enqueue. -/
def SendOutcome : Type := Option Unit

/-- Outcome of `response.await` on the oneshot channel: `none` models
`Err(RecvError)` (the channel was dropped without a value), `some v` a
delivered reply carrying the entity-level `Result`. -/
def RecvOutcome (α : Type) : Type := Option (Except FrameworkError α)

/-- Shared body of every client method:
`send(..).await.map_err(|_| ActorClosed)?; response.await.map_err(|_| ActorDropped)?`. -/
def clientCall (send : SendOutcome) (recv : RecvOutcome α) :
    Except FrameworkError α :=
  match send with
  | none => .error .ActorClosed
  | some _ =>
    match recv with
    | none => .error .ActorDropped
    | some v => v

/-- `ResourceClient::create`: builds a Create request from the payload and
performs the two-phase channel exchange. -/
def ResourceClient.create (_payload : P) (send : SendOutcome)
    (recv : RecvOutcome Id) : Except FrameworkError Id :=
  clientCall send recv

/-- `ResourceClient::get`. -/
def ResourceClient.get (_id : Id) (send : SendOutcome)
    (recv : RecvOutcome (Option T)) : Except FrameworkError (Option T) :=
  clientCall send recv

/-- `ResourceClient::update`. -/
def ResourceClient.update (_id : Id) (_patch : Patch) (send : SendOutcome)
    (recv : RecvOutcome T) : Except FrameworkError T :=
  clientCall send recv

/-- `ResourceClient::delete`. -/
def ResourceClient.delete (_id : Id) (send : SendOutcome)
    (recv : RecvOutcome Unit) : Except FrameworkError Unit :=
  clientCall send recv

/-- `ResourceClient::perform_action`. -/
def ResourceClient.perform_action (_id : Id) (_act : A) (send : SendOutcome)
    (recv : RecvOutcome R) : Except FrameworkError R :=
  clientCall send recv

end Client

/-! ### A concrete entity instantiation, used to witness the theorems below.
It mirrors the shape of the `SimpleUser` test entity in the source, with
payloads `999` and `998` added as designated failure triggers so the error
paths of `from_create` and `on_create` are reachable. -/

/-- A tiny concrete entity: a user with a numeric name and an admin flag. -/
structure DemoUser where
  name : Nat
  admin : Bool
deriving DecidableEq, Repr

/-- Concrete hooks for `DemoUser`: payload `999` makes `from_create` fail,
name `998` makes `on_create` fail, patch `none` makes `on_update` fail,
deleting an admin fails `on_delete`, and the sole action reports (and sets)
the admin flag. -/
def demoEntity : Entity Nat Nat (Option Nat) Unit Bool DemoUser where
  from_create _id payload :=
    if payload = 999 then .error "bad payload"
    else .ok { name := payload, admin := false }
  on_create u :=
    if u.name = 998 then (.error "cursed name", u) else (.ok (), u)
  on_update u patch :=
    match patch with
    | some n => (.ok (), { u with name := n })
    | none => (.error "empty patch", { u with admin := true })
  on_delete u :=
    if u.admin then .error "cannot delete admin" else .ok ()
  handle_action u _ := (.ok u.admin, { u with admin := true })

/-- The identity generator stream: mints `0, 1, 2, ...`. -/
def demoGen : Nat → Nat := fun n => n

/-- A generator stream with a designed collision: always mints `5`. -/
def collideGen : Nat → Nat := fun _ => 5

/-- `Display` for demo ids. -/
def demoDisp : Nat → String := toString

/-- A demo actor state holding one user under id `5`. -/
def demoState : ActorState Nat DemoUser :=
  { store := Store.empty.insert 5 { name := 7, admin := false }, counter := 6 }

/-! ### Shared lemmas about `step` and `run` -/

section StepLemmas

variable {Id P Patch A R T : Type} [DecidableEq Id]
variable (E : Entity Id P Patch A R T) (gen : Nat → Id) (disp : Id → String)

/-- Processing one request leaves every store entry other than the request's
target key untouched. -/
theorem step_store_frame (s : ActorState Id T) (req : ResourceRequest Id P Patch A)
    (k : Id) (hk : targetId gen s req ≠ some k) :
    ((step E gen disp s req : ActorState Id T × List (Reply Id T R)).1.store k) = s.store k := by
  cases req with
  | Create payload =>
    simp only [targetId, ne_eq, Option.some.injEq] at hk
    simp only [step]
    cases hc : E.from_create (gen s.counter) payload with
    | ok item =>
      cases ho : E.on_create item with
      | mk r item' =>
        cases r with
        | ok u => simp [ho, Store.insert, Ne.symm hk]
        | error e => simp [ho]
    | error e => simp
  | Get id => simp [step]
  | Update id patch =>
    simp only [targetId, ne_eq, Option.some.injEq] at hk
    simp only [step]
    cases hs : s.store id with
    | some item =>
      cases ho : E.on_update item patch with
      | mk r item' =>
        cases r with
        | ok u => simp [ho, Store.insert, Ne.symm hk]
        | error e => simp [ho, Store.insert, Ne.symm hk]
    | none => simp
  | Delete id =>
    simp only [targetId, ne_eq, Option.some.injEq] at hk
    simp only [step]
    cases hs : s.store id with
    | some item =>
      cases ho : E.on_delete item with
      | ok u => simp [ho, Store.remove, Ne.symm hk]
      | error e => simp [ho]
    | none => simp
  | Action id act =>
    simp only [targetId, ne_eq, Option.some.injEq] at hk
    simp only [step]
    cases hs : s.store id with
    | some item =>
      cases ho : E.handle_action item act with
      | mk r item' =>
        cases r with
        | ok u => simp [ho, Store.insert, Ne.symm hk]
        | error e => simp [ho, Store.insert, Ne.symm hk]
    | none => simp

/-- The generator counter never decreases across a step, and only a Create
advances it (by exactly one). -/
theorem step_counter (s : ActorState Id T) (req : ResourceRequest Id P Patch A) :
    ((step E gen disp s req : ActorState Id T × List (Reply Id T R)).1.counter) =
      (match req with
        | .Create _ => s.counter + 1
        | _ => s.counter) := by
  cases req with
  | Create payload =>
    simp only [step]
    cases hc : E.from_create (gen s.counter) payload with
    | ok item =>
      cases ho : E.on_create item with
      | mk r item' => cases r with
        | ok u => simp [ho]
        | error e => simp [ho]
    | error e => simp
  | Get id => simp [step]
  | Update id patch =>
    simp only [step]
    cases hs : s.store id with
    | some item =>
      cases ho : E.on_update item patch with
      | mk r item' => cases r with
        | ok u => simp [ho]
        | error e => simp [ho]
    | none => simp
  | Delete id =>
    simp only [step]
    cases hs : s.store id with
    | some item =>
      cases ho : E.on_delete item with
      | ok u => simp [ho]
      | error e => simp [ho]
    | none => simp
  | Action id act =>
    simp only [step]
    cases hs : s.store id with
    | some item =>
      cases ho : E.handle_action item act with
      | mk r item' => cases r with
        | ok u => simp [ho]
        | error e => simp [ho]
    | none => simp

/-- The counter is monotone across a step. -/
theorem step_counter_le (s : ActorState Id T) (req : ResourceRequest Id P Patch A) :
    s.counter ≤ ((step E gen disp s req : ActorState Id T × List (Reply Id T R)).1.counter) := by
  rw [step_counter E gen disp s req]
  cases req <;> simp

/-- Running a request sequence that never updates, deletes, or acts on `i`,
under a generator that never mints `i` from the current index on, leaves the
entry at `i` untouched; the counter never decreases. -/
theorem run_store_untouched (i : Id) (L : List (ResourceRequest Id P Patch A))
    (s : ActorState Id T)
    (hgen : ∀ n, s.counter ≤ n → gen n ≠ i)
    (hL : ∀ r ∈ L, ¬ touchesId i r) :
    (run E gen disp s L : ActorState Id T × List (Reply Id T R)).1.store i = s.store i ∧
    s.counter ≤ (run E gen disp s L : ActorState Id T × List (Reply Id T R)).1.counter := by
  induction L generalizing s with
  | nil => exact ⟨rfl, le_refl _⟩
  | cons r rs ih =>
    have htar : targetId gen s r ≠ some i := by
      cases r with
      | Create payload =>
        simpa [targetId] using hgen s.counter (le_refl _)
      | Get id => simp [targetId]
      | Update j patch =>
        simpa [targetId, touchesId] using hL _ (List.mem_cons_self _ _)
      | Delete j =>
        simpa [targetId, touchesId] using hL _ (List.mem_cons_self _ _)
      | Action j act =>
        simpa [targetId, touchesId] using hL _ (List.mem_cons_self _ _)
    have hframe := step_store_frame (R := R) E gen disp s r i htar
    have hcle := step_counter_le (R := R) E gen disp s r
    have hrest := ih ((step E gen disp s r :
        ActorState Id T × List (Reply Id T R)).1)
      (fun n hn => hgen n (le_trans hcle hn))
      (fun r hr => hL r (List.mem_cons_of_mem _ hr))
    refine ⟨?_, ?_⟩
    · show (run E gen disp s (r :: rs) :
          ActorState Id T × List (Reply Id T R)).1.store i = s.store i
      simp only [run]
      exact hrest.1.trans hframe
    · show s.counter ≤ (run E gen disp s (r :: rs) :
          ActorState Id T × List (Reply Id T R)).1.counter
      simp only [run]
      exact le_trans hcle hrest.2

/-- The reply list of one step contributes either no successful-Create id or
exactly the id minted at the current counter (in which case the counter
advanced by one). -/
theorem step_create_ids (s : ActorState Id T) (req : ResourceRequest Id P Patch A) :
    successfulCreateIds
        ((step E gen disp s req : ActorState Id T × List (Reply Id T R)).2) = [] ∨
    (successfulCreateIds
        ((step E gen disp s req : ActorState Id T × List (Reply Id T R)).2) =
      [gen s.counter] ∧
      (step E gen disp s req :
        ActorState Id T × List (Reply Id T R)).1.counter = s.counter + 1) := by
  cases req with
  | Create payload =>
    simp only [step]
    cases hc : E.from_create (gen s.counter) payload with
    | ok item =>
      cases ho : E.on_create item with
      | mk r item' => cases r with
        | ok u => right; simp [ho, successfulCreateIds]
        | error e => left; simp [ho, successfulCreateIds]
    | error e => left; simp [successfulCreateIds]
  | Get id => left; simp [step, successfulCreateIds]
  | Update id patch =>
    left
    simp only [step]
    cases hs : s.store id with
    | some item =>
      cases ho : E.on_update item patch with
      | mk r item' => cases r with
        | ok u => simp [ho, successfulCreateIds]
        | error e => simp [ho, successfulCreateIds]
    | none => simp [successfulCreateIds]
  | Delete id =>
    left
    simp only [step]
    cases hs : s.store id with
    | some item =>
      cases ho : E.on_delete item with
      | ok u => simp [ho, successfulCreateIds]
      | error e => simp [ho, successfulCreateIds]
    | none => simp [successfulCreateIds]
  | Action id act =>
    left
    simp only [step]
    cases hs : s.store id with
    | some item =>
      cases ho : E.handle_action item act with
      | mk r item' => cases r with
        | ok u => simp [ho, successfulCreateIds]
        | error e => simp [ho, successfulCreateIds]
    | none => simp [successfulCreateIds]

/-- Every id among the successful-Create replies of a run was minted at some
generator index at or past the starting counter. -/
theorem run_create_ids_ge (L : List (ResourceRequest Id P Patch A))
    (s : ActorState Id T) (i : Id)
    (hi : i ∈ successfulCreateIds
      ((run E gen disp s L : ActorState Id T × List (Reply Id T R)).2)) :
    ∃ c, s.counter ≤ c ∧ i = gen c := by
  induction L generalizing s with
  | nil => simp [run, successfulCreateIds] at hi
  | cons r rs ih =>
    simp only [run, successfulCreateIds, List.filterMap_append] at hi
    rw [List.mem_append] at hi
    have hcle := step_counter_le (R := R) E gen disp s r
    cases hi with
    | inl hin =>
      rcases step_create_ids (R := R) E gen disp s r with hz | ⟨hone, _⟩
      · rw [show successfulCreateIds ((step E gen disp s r :
            ActorState Id T × List (Reply Id T R)).2) =
            List.filterMap _ ((step E gen disp s r :
              ActorState Id T × List (Reply Id T R)).2) from rfl] at hz
        rw [hz] at hin
        simp at hin
      · rw [show successfulCreateIds ((step E gen disp s r :
            ActorState Id T × List (Reply Id T R)).2) =
            List.filterMap _ ((step E gen disp s r :
              ActorState Id T × List (Reply Id T R)).2) from rfl] at hone
        rw [hone] at hin
        simp at hin
        exact ⟨s.counter, le_refl _, hin⟩
    | inr hin =>
      rcases ih ((step E gen disp s r : ActorState Id T × List (Reply Id T R)).1)
        (by simpa [successfulCreateIds] using hin) with ⟨c, hc, hgc⟩
      exact ⟨c, le_trans hcle hc, hgc⟩

omit [DecidableEq Id] in
/-- Successful-create id extraction distributes over reply-list append. -/
theorem successfulCreateIds_append (l₁ l₂ : List (Reply Id T R)) :
    successfulCreateIds (l₁ ++ l₂) = successfulCreateIds l₁ ++ successfulCreateIds l₂ := by
  simp [successfulCreateIds, List.filterMap_append]

end StepLemmas

/-! ### Claim theorems -/

section Claims

variable {Id P Patch A R T : Type} [DecidableEq Id]

/-- Claim C1: for every request the actor dequeues, every store state, and
every outcome of the entity hooks (the hooks range over all of `E`), exactly
one send is attempted on that request's reply channel: the reply-event list
of `step` has length one. -/
theorem c1_reply_exactly_once (E : Entity Id P Patch A R T) (gen : Nat → Id)
    (disp : Id → String) (s : ActorState Id T) (req : ResourceRequest Id P Patch A) :
    ((step E gen disp s req : ActorState Id T × List (Reply Id T R)).2).length = 1 := by
  cases req with
  | Create payload =>
    simp only [step]
    cases hc : E.from_create (gen s.counter) payload with
    | ok item =>
      cases ho : E.on_create item with
      | mk r item' => cases r with
        | ok u => simp [ho]
        | error e => simp [ho]
    | error e => simp
  | Get id => simp [step]
  | Update id patch =>
    simp only [step]
    cases hs : s.store id with
    | some item =>
      cases ho : E.on_update item patch with
      | mk r item' => cases r with
        | ok u => simp [ho]
        | error e => simp [ho]
    | none => simp
  | Delete id =>
    simp only [step]
    cases hs : s.store id with
    | some item =>
      cases ho : E.on_delete item with
      | ok u => simp [ho]
      | error e => simp [ho]
    | none => simp
  | Action id act =>
    simp only [step]
    cases hs : s.store id with
    | some item =>
      cases ho : E.handle_action item act with
      | mk r item' => cases r with
        | ok u => simp [ho]
        | error e => simp [ho]
    | none => simp

/-- Claim C4: for an id absent from the store, Update, Delete, and Action all
reply with the `NotFound` error and leave the state unchanged, while Get
replies `Ok(None)` (absence is not an error for Get); in particular Delete of
an absent (e.g. already-deleted) id is `NotFound`, not success. -/
theorem c4_absent_id (E : Entity Id P Patch A R T) (gen : Nat → Id)
    (disp : Id → String) (s : ActorState Id T) (id : Id) (patch : Patch) (act : A)
    (h : s.store id = none) :
    (step E gen disp s (.Update id patch) : ActorState Id T × List (Reply Id T R)) =
      (s, [.updateR (.error (.NotFound (disp id)))]) ∧
    (step E gen disp s (.Delete id) : ActorState Id T × List (Reply Id T R)) =
      (s, [.deleteR (.error (.NotFound (disp id)))]) ∧
    (step E gen disp s (.Action id act) : ActorState Id T × List (Reply Id T R)) =
      (s, [.actionR (.error (.NotFound (disp id)))]) ∧
    (step E gen disp s (.Get id) : ActorState Id T × List (Reply Id T R)) =
      (s, [.getR (.ok none)]) := by
  refine ⟨?_, ?_, ?_, ?_⟩ <;> simp [step, h]

/-- Witness for C4 at a concrete absent id. -/
theorem c4_absent_id_witness :
    demoState.store 0 = none ∧
    (step demoEntity demoGen demoDisp demoState (.Delete 0) :
        ActorState Nat DemoUser × List (Reply Nat DemoUser Bool)) =
      (demoState, [.deleteR (.error (.NotFound (demoDisp 0)))]) :=
  ⟨rfl, (c4_absent_id demoEntity demoGen demoDisp demoState 0 none () rfl).2.1⟩

/-- Claim C5: for an Update whose id is present and holds `item`, the actor
calls `on_update item patch`; on success the reply is `Ok` of the mutated
instance, which is exactly the value then stored under the id; on failure the
reply is that failure and the store keeps the id mapped to whatever state the
hook left the instance in — no rollback. -/
theorem c5_update_present (E : Entity Id P Patch A R T) (gen : Nat → Id)
    (disp : Id → String) (s : ActorState Id T) (id : Id) (patch : Patch) (item : T)
    (h : s.store id = some item) :
    (∀ u item', E.on_update item patch = (.ok u, item') →
      (step E gen disp s (.Update id patch) : ActorState Id T × List (Reply Id T R)) =
        ({ s with store := s.store.insert id item' }, [.updateR (.ok item')]) ∧
      (step E gen disp s (.Update id patch) :
          ActorState Id T × List (Reply Id T R)).1.store id = some item') ∧
    (∀ e item', E.on_update item patch = (.error e, item') →
      (step E gen disp s (.Update id patch) : ActorState Id T × List (Reply Id T R)) =
        ({ s with store := s.store.insert id item' }, [.updateR (.error (.Custom e))]) ∧
      (step E gen disp s (.Update id patch) :
          ActorState Id T × List (Reply Id T R)).1.store id = some item') := by
  constructor <;> intro x item' ho <;> simp [step, h, ho, Store.insert]

/-- Witness for C5 at a concrete present id and succeeding patch. -/
theorem c5_update_present_witness :
    demoState.store 5 = some { name := 7, admin := false } ∧
    demoEntity.on_update { name := 7, admin := false } (some 3) =
      (.ok (), { name := 3, admin := false }) ∧
    (step demoEntity demoGen demoDisp demoState (.Update 5 (some 3)) :
        ActorState Nat DemoUser × List (Reply Nat DemoUser Bool)).1.store 5 =
      some { name := 3, admin := false } :=
  ⟨rfl, rfl,
    ((c5_update_present demoEntity demoGen demoDisp demoState 5 (some 3)
      { name := 7, admin := false } rfl).1 () { name := 3, admin := false } rfl).2⟩

/-- Claim C6: for a Delete whose id is present and holds `item`, the actor
calls `on_delete item`; on success the entry is removed and the reply is
success; on failure the reply is that failure and the entry remains. -/
theorem c6_delete_present (E : Entity Id P Patch A R T) (gen : Nat → Id)
    (disp : Id → String) (s : ActorState Id T) (id : Id) (item : T)
    (h : s.store id = some item) :
    (E.on_delete item = .ok () →
      (step E gen disp s (.Delete id) : ActorState Id T × List (Reply Id T R)) =
        ({ s with store := s.store.remove id }, [.deleteR (.ok ())]) ∧
      (step E gen disp s (.Delete id) :
          ActorState Id T × List (Reply Id T R)).1.store id = none) ∧
    (∀ e, E.on_delete item = .error e →
      (step E gen disp s (.Delete id) : ActorState Id T × List (Reply Id T R)) =
        (s, [.deleteR (.error (.Custom e))]) ∧
      (step E gen disp s (.Delete id) :
          ActorState Id T × List (Reply Id T R)).1.store id = some item) := by
  constructor
  · intro ho
    simp [step, h, ho, Store.remove]
  · intro e ho
    simp [step, h, ho]

/-- Witness for C6: deleting the concrete non-admin user succeeds and removes
the entry. -/
theorem c6_delete_present_witness :
    demoState.store 5 = some { name := 7, admin := false } ∧
    demoEntity.on_delete { name := 7, admin := false } = .ok () ∧
    (step demoEntity demoGen demoDisp demoState (.Delete 5) :
        ActorState Nat DemoUser × List (Reply Nat DemoUser Bool)).1.store 5 = none :=
  ⟨rfl, rfl,
    ((c6_delete_present demoEntity demoGen demoDisp demoState 5
      { name := 7, admin := false } rfl).1 rfl).2⟩

/-- Claim C9: every operation touches at most the single store entry named by
its target key (the request's id, or the freshly minted id for Create) — all
other keys map to identical values before and after — and a Get leaves the
whole state unchanged, replying with a copy of the looked-up entry. -/
theorem c9_frame (E : Entity Id P Patch A R T) (gen : Nat → Id)
    (disp : Id → String) (s : ActorState Id T) (req : ResourceRequest Id P Patch A) :
    (∀ k, targetId gen s req ≠ some k →
      (step E gen disp s req : ActorState Id T × List (Reply Id T R)).1.store k =
        s.store k) ∧
    (∀ id, (step E gen disp s (.Get id) : ActorState Id T × List (Reply Id T R)) =
      (s, [.getR (.ok (s.store id))])) := by
  constructor
  · intro k hk
    exact step_store_frame E gen disp s req k hk
  · intro id
    simp [step]

/-- Witness for C9: an Update of id 5 leaves the entry under id 0 untouched. -/
theorem c9_frame_witness :
    targetId demoGen demoState
        (ResourceRequest.Update 5 (some 3) : ResourceRequest Nat Nat (Option Nat) Unit) ≠
      some 0 ∧
    (step demoEntity demoGen demoDisp demoState (.Update 5 (some 3)) :
        ActorState Nat DemoUser × List (Reply Nat DemoUser Bool)).1.store 0 =
      demoState.store 0 :=
  ⟨by simp [targetId],
    (c9_frame demoEntity demoGen demoDisp demoState (.Update 5 (some 3))).1 0
      (by simp [targetId])⟩

/-- Claim C10: if the generator mints an id already present in the store and
both `from_create` and `on_create` succeed, the Create replies success with
that id and the existing entry is silently replaced by the new instance — no
duplicate-id check, no error. -/
theorem c10_create_collision (E : Entity Id P Patch A R T) (gen : Nat → Id)
    (disp : Id → String) (s : ActorState Id T) (payload : P) (old item item' : T) (u : Unit)
    (_hold : s.store (gen s.counter) = some old)
    (hc : E.from_create (gen s.counter) payload = .ok item)
    (ho : E.on_create item = (.ok u, item')) :
    (step E gen disp s (.Create payload) : ActorState Id T × List (Reply Id T R)).2 =
      [.createR (.ok (gen s.counter))] ∧
    (step E gen disp s (.Create payload) :
        ActorState Id T × List (Reply Id T R)).1.store (gen s.counter) = some item' := by
  simp [step, hc, ho, Store.insert]

/-- Witness for C10: `collideGen` re-mints id 5, which `demoState` already
holds; the Create succeeds and overwrites the old entry. -/
theorem c10_create_collision_witness :
    demoState.store (collideGen demoState.counter) = some { name := 7, admin := false } ∧
    (step demoEntity collideGen demoDisp demoState (.Create 1) :
        ActorState Nat DemoUser × List (Reply Nat DemoUser Bool)).1.store 5 =
      some { name := 1, admin := false } :=
  ⟨rfl,
    (c10_create_collision demoEntity collideGen demoDisp demoState 1
      { name := 7, admin := false } { name := 1, admin := false }
      { name := 1, admin := false } () rfl rfl rfl).2⟩

/-- Claim C2: every Create invokes the generator exactly once (the stream
index advances by exactly one, whatever happens next); if `from_create` or the
subsequent `on_create` fails, the reply carries that failure and the store is
pointwise exactly what it was before — and the minted index is still consumed,
never reused or reported back. -/
theorem c2_create_failure_no_trace (E : Entity Id P Patch A R T) (gen : Nat → Id)
    (disp : Id → String) (s : ActorState Id T) (payload : P) :
    (step E gen disp s (.Create payload) :
        ActorState Id T × List (Reply Id T R)).1.counter = s.counter + 1 ∧
    (∀ e, E.from_create (gen s.counter) payload = .error e →
      (step E gen disp s (.Create payload) :
          ActorState Id T × List (Reply Id T R)).1.store = s.store ∧
      (step E gen disp s (.Create payload) : ActorState Id T × List (Reply Id T R)).2 =
        [.createR (.error (.Custom e))]) ∧
    (∀ item e item', E.from_create (gen s.counter) payload = .ok item →
      E.on_create item = (.error e, item') →
      (step E gen disp s (.Create payload) :
          ActorState Id T × List (Reply Id T R)).1.store = s.store ∧
      (step E gen disp s (.Create payload) : ActorState Id T × List (Reply Id T R)).2 =
        [.createR (.error (.Custom e))]) := by
  refine ⟨?_, ?_, ?_⟩
  · have h := step_counter (R := R) E gen disp s (.Create payload)
    simpa using h
  · intro e hc
    simp [step, hc]
  · intro item e item' hc ho
    simp [step, hc, ho]

/-- Witness for C2: payload 999 makes `from_create` fail; payload 998 makes
`on_create` fail; in both cases the store is untouched and the counter moved. -/
theorem c2_create_failure_no_trace_witness :
    demoEntity.from_create (demoGen demoState.counter) 999 = .error "bad payload" ∧
    ((step demoEntity demoGen demoDisp demoState (.Create 999) :
        ActorState Nat DemoUser × List (Reply Nat DemoUser Bool)).1.store =
      demoState.store ∧
    (step demoEntity demoGen demoDisp demoState (.Create 999) :
        ActorState Nat DemoUser × List (Reply Nat DemoUser Bool)).2 =
      [.createR (.error (.Custom "bad payload"))]) ∧
    demoEntity.from_create (demoGen demoState.counter) 998 = .ok { name := 998, admin := false } ∧
    demoEntity.on_create { name := 998, admin := false } =
      (.error "cursed name", { name := 998, admin := false }) ∧
    ((step demoEntity demoGen demoDisp demoState (.Create 998) :
        ActorState Nat DemoUser × List (Reply Nat DemoUser Bool)).1.store =
      demoState.store ∧
    (step demoEntity demoGen demoDisp demoState (.Create 998) :
        ActorState Nat DemoUser × List (Reply Nat DemoUser Bool)).2 =
      [.createR (.error (.Custom "cursed name"))]) ∧
    (step demoEntity demoGen demoDisp demoState (.Create 999) :
        ActorState Nat DemoUser × List (Reply Nat DemoUser Bool)).1.counter =
      demoState.counter + 1 :=
  ⟨rfl,
    (c2_create_failure_no_trace demoEntity demoGen demoDisp demoState 999).2.1
      "bad payload" rfl,
    rfl, rfl,
    (c2_create_failure_no_trace demoEntity demoGen demoDisp demoState 998).2.2
      { name := 998, admin := false } "cursed name" { name := 998, admin := false } rfl rfl,
    (c2_create_failure_no_trace demoEntity demoGen demoDisp demoState 999).1⟩

omit [DecidableEq Id] in
/-- Claim C8: every client method returns `ActorClosed` when the mailbox send
fails, `ActorDropped` when the reply channel is dropped without a value, and
passes a delivered reply through entirely unchanged. -/
theorem c8_client_channel_errors (payload : P) (id : Id) (patch : Patch) (act : A) :
    (∀ recv : RecvOutcome Id, ResourceClient.create payload none recv = .error .ActorClosed) ∧
    ResourceClient.create payload (some ()) (none : RecvOutcome Id) = .error .ActorDropped ∧
    (∀ v : Except FrameworkError Id, ResourceClient.create payload (some ()) (some v) = v) ∧
    (∀ recv, ResourceClient.get (T := T) id none recv = .error .ActorClosed) ∧
    ResourceClient.get (T := T) id (some ()) none = .error .ActorDropped ∧
    (∀ v, ResourceClient.get (T := T) id (some ()) (some v) = v) ∧
    (∀ recv, ResourceClient.update (T := T) id patch none recv = .error .ActorClosed) ∧
    ResourceClient.update (T := T) id patch (some ()) none = .error .ActorDropped ∧
    (∀ v, ResourceClient.update (T := T) id patch (some ()) (some v) = v) ∧
    (∀ recv, ResourceClient.delete id none recv = .error .ActorClosed) ∧
    ResourceClient.delete id (some ()) none = .error .ActorDropped ∧
    (∀ v, ResourceClient.delete id (some ()) (some v) = v) ∧
    (∀ recv, ResourceClient.perform_action (R := R) id act none recv = .error .ActorClosed) ∧
    ResourceClient.perform_action (R := R) id act (some ()) none = .error .ActorDropped ∧
    (∀ v, ResourceClient.perform_action (R := R) id act (some ()) (some v) = v) := by
  refine ⟨fun _ => rfl, rfl, fun _ => rfl, fun _ => rfl, rfl, fun _ => rfl,
    fun _ => rfl, rfl, fun _ => rfl, fun _ => rfl, rfl, fun _ => rfl,
    fun _ => rfl, rfl, fun _ => rfl⟩

/-- Claim C3: a Create on which `from_create` and `on_create` succeed replies
with the minted id `i`, and a later Get for `i` — with no intervening Update,
Delete, or Action on `i`, and under the spec's standing assumption that the
generator does not mint `i` again — replies `Ok(Some e)` where `e` is the
instance produced by `from_create` followed by `on_create`. -/
theorem c3_create_then_get (E : Entity Id P Patch A R T) (gen : Nat → Id)
    (disp : Id → String) (s : ActorState Id T) (payload : P) (item item' : T)
    (u : Unit) (L : List (ResourceRequest Id P Patch A))
    (hc : E.from_create (gen s.counter) payload = .ok item)
    (ho : E.on_create item = (.ok u, item'))
    (hgen : ∀ n, s.counter + 1 ≤ n → gen n ≠ gen s.counter)
    (hL : ∀ r ∈ L, ¬ touchesId (gen s.counter) r) :
    (step E gen disp s (.Create payload) : ActorState Id T × List (Reply Id T R)).2 =
      [.createR (.ok (gen s.counter))] ∧
    (step E gen disp
        (run E gen disp
          (step E gen disp s (.Create payload) :
            ActorState Id T × List (Reply Id T R)).1 L :
          ActorState Id T × List (Reply Id T R)).1
        (.Get (gen s.counter)) : ActorState Id T × List (Reply Id T R)).2 =
      [.getR (.ok (some item'))] := by
  have hstep : (step E gen disp s (.Create payload) :
      ActorState Id T × List (Reply Id T R)) =
      ({ store := s.store.insert (gen s.counter) item', counter := s.counter + 1 },
        [.createR (.ok (gen s.counter))]) := by
    simp [step, hc, ho]
  refine ⟨by rw [hstep], ?_⟩
  have hinv := run_store_untouched (R := R) E gen disp (gen s.counter) L
    (step E gen disp s (.Create payload) :
      ActorState Id T × List (Reply Id T R)).1
    (by rw [hstep]; exact hgen) hL
  have hstore : (run E gen disp
      (step E gen disp s (.Create payload) :
        ActorState Id T × List (Reply Id T R)).1 L :
      ActorState Id T × List (Reply Id T R)).1.store (gen s.counter) = some item' := by
    rw [hinv.1, hstep]
    simp [Store.insert]
  have hget : ∀ (t : ActorState Id T) (i : Id),
      (step E gen disp t (.Get i) : ActorState Id T × List (Reply Id T R)).2 =
      [.getR (.ok (t.store i))] := fun _ _ => rfl
  rw [hget, hstore]

/-- Witness for C3: create payload 7 in the empty actor, run one unrelated
Create, then Get the minted id 0 and find the created user. -/
theorem c3_create_then_get_witness :
    demoEntity.from_create (demoGen 0) 7 = .ok { name := 7, admin := false } ∧
    demoEntity.on_create { name := 7, admin := false } =
      (.ok (), { name := 7, admin := false }) ∧
    (step demoEntity demoGen demoDisp
        (run demoEntity demoGen demoDisp
          (step demoEntity demoGen demoDisp ⟨Store.empty, 0⟩ (.Create 7) :
            ActorState Nat DemoUser × List (Reply Nat DemoUser Bool)).1
          [.Create 5] :
          ActorState Nat DemoUser × List (Reply Nat DemoUser Bool)).1
        (.Get (demoGen 0)) : ActorState Nat DemoUser × List (Reply Nat DemoUser Bool)).2 =
      [.getR (.ok (some { name := 7, admin := false }))] :=
  ⟨rfl, rfl,
    (c3_create_then_get demoEntity demoGen demoDisp ⟨Store.empty, 0⟩ 7
      { name := 7, admin := false } { name := 7, admin := false } () [.Create 5]
      rfl rfl
      (by intro n hn h; simp [demoGen] at h; omega)
      (by intro r hr; simp only [List.mem_singleton] at hr; subst hr; simp [touchesId])).2⟩

/-- Claim C7: if the injected generator returns pairwise-distinct values on
distinct invocations, then over any request sequence processed by one actor
the ids returned by all successful Creates are pairwise distinct. -/
theorem c7_create_ids_pairwise_distinct (E : Entity Id P Patch A R T)
    (gen : Nat → Id) (disp : Id → String)
    (hgen : ∀ m n : Nat, m ≠ n → gen m ≠ gen n)
    (L : List (ResourceRequest Id P Patch A)) (s : ActorState Id T) :
    (successfulCreateIds
      ((run E gen disp s L : ActorState Id T × List (Reply Id T R)).2)).Nodup := by
  induction L generalizing s with
  | nil => simp [run, successfulCreateIds]
  | cons r rs ih =>
    have hrun : (run E gen disp s (r :: rs) :
        ActorState Id T × List (Reply Id T R)).2 =
        (step E gen disp s r : ActorState Id T × List (Reply Id T R)).2 ++
        (run E gen disp (step E gen disp s r :
            ActorState Id T × List (Reply Id T R)).1 rs :
          ActorState Id T × List (Reply Id T R)).2 := by
      simp [run]
    rw [hrun, successfulCreateIds_append]
    rcases step_create_ids (R := R) E gen disp s r with hz | ⟨hone, hcnt⟩
    · rw [hz]
      simpa using ih _
    · rw [hone, List.singleton_append, List.nodup_cons]
      refine ⟨?_, ih _⟩
      intro hmem
      rcases run_create_ids_ge (R := R) E gen disp rs _ _ hmem with ⟨c, hcge, hgc⟩
      rw [hcnt] at hcge
      exact hgen s.counter c (by omega) hgc

/-- Witness for C7: three Creates (one failing) and a Get in the demo actor
yield pairwise-distinct successful-create ids. -/
theorem c7_create_ids_pairwise_distinct_witness :
    (successfulCreateIds
      ((run demoEntity demoGen demoDisp ⟨Store.empty, 0⟩
          [.Create 1, .Create 999, .Create 2, .Get 0] :
        ActorState Nat DemoUser × List (Reply Nat DemoUser Bool)).2)).Nodup :=
  c7_create_ids_pairwise_distinct demoEntity demoGen demoDisp
    (fun _ _ hmn h => hmn h) [.Create 1, .Create 999, .Create 2, .Get 0]
    ⟨Store.empty, 0⟩

end Claims

end ActorRecipe
